import Mathlib

/-!
Shallow embedding of `src/server.js` (upravytelka-backend): a lead-form
backend that validates a submission and relays it to the Telegram Bot API.

JavaScript values reaching the validator are modelled by `JsValue`;
string truthiness, `??` coalescing and `String(...)` coercion follow the
JS semantics the code relies on.  The request handler is modelled as a
pure function from the configuration, the parsed body, the formatted
timestamp and an abstract delivery function to the HTTP response paired
with the list of outbound delivery calls made.
-/

/-- Model of a JavaScript value as it can appear in a parsed JSON body
field (plus `undefined` for an absent field). -/
inductive JsValue where
  | undefined
  | null
  | bool (b : Bool)
  | num (n : Int)
  | str (s : String)
deriving DecidableEq, Repr

/-- JavaScript `String(v)` coercion on the modelled values. -/
def jsString : JsValue → String
  | .undefined => "undefined"
  | .null => "null"
  | .bool b => if b then "true" else "false"
  | .num n => toString n
  | .str s => s

/-- JavaScript `v ?? ""` nullish coalescing. -/
def jsCoalesceEmpty : JsValue → JsValue
  | .undefined => .str ""
  | .null => .str ""
  | v => v

/-- JavaScript `s.trim()`: strip leading and trailing whitespace.  Modelled
directly on the character list so that it evaluates by kernel reduction. -/
def jsTrim (s : String) : String :=
  ⟨(((s.data.dropWhile Char.isWhitespace).reverse.dropWhile Char.isWhitespace).reverse)⟩

/-- `cleanStr(v)` from server.js: `String(v ?? "").trim()`. -/
def cleanStr (v : JsValue) : String :=
  jsTrim (jsString (jsCoalesceEmpty v))

/-- Parsed request body for `POST /api/lead`: the recognized fields, each
an arbitrary JS value (`undefined` when the field is absent). -/
structure JsBody where
  name : JsValue := .undefined
  contact : JsValue := .undefined
  type : JsValue := .undefined
  location : JsValue := .undefined
  needs : JsValue := .undefined
  timeline : JsValue := .undefined
  website : JsValue := .undefined
deriving DecidableEq, Repr

/-- The `data` record returned by `validateLead`: all seven fields
coerced to trimmed text. -/
structure LeadData where
  name : String
  contact : String
  type : String
  location : String
  needs : String
  timeline : String
  website : String
deriving DecidableEq, Repr

/-- The object `{ ok, errors, data }` returned by `validateLead`. -/
structure VResult where
  ok : Bool
  errors : List String
  data : LeadData
deriving DecidableEq, Repr

/-- `validateLead(body)` from server.js.  Each `if (...) errors.push(id)`
becomes the append of a singleton guarded by the same (boolean) condition,
in the same order; `if (website)` is string truthiness, i.e. `website != ""`,
and `!type` / `!timeline` are emptiness. -/
def validateLead (body : JsBody) : VResult :=
  let name := cleanStr body.name
  let contact := cleanStr body.contact
  let type := cleanStr body.type
  let location := cleanStr body.location
  let needs := cleanStr body.needs
  let timeline := cleanStr body.timeline
  let website := cleanStr body.website
  let errors :=
    (if website != "" then ["Spam."] else []) ++
    (if decide (name.length < 2) then ["name"] else []) ++
    (if decide (contact.length < 5) then ["contact"] else []) ++
    (if decide (location.length < 2) then ["location"] else []) ++
    (if decide (needs.length < 10) then ["needs"] else []) ++
    (if type == "" then ["type"] else []) ++
    (if timeline == "" then ["timeline"] else [])
  { ok := errors.length == 0
    errors := errors
    data := { name := name, contact := contact, type := type,
              location := location, needs := needs,
              timeline := timeline, website := website } }

/-- Server configuration read from the environment at startup:
`TELEGRAM_BOT_TOKEN`, `TELEGRAM_CHAT_ID` (both default to `""` when the
variable is unset) and the parsed origin allow-list. -/
structure Config where
  botToken : String
  chatId : String
  allowedOrigins : List String
deriving DecidableEq, Repr

/-- `requiredEnvOk()` from server.js: `Boolean(TELEGRAM_BOT_TOKEN && TELEGRAM_CHAT_ID)`,
i.e. both strings truthy (non-empty). -/
def requiredEnvOk (cfg : Config) : Bool :=
  cfg.botToken != "" && cfg.chatId != ""

/-- `formatTelegramMessage(d)` from server.js.  The timestamp string that
the code computes from the current clock via `Intl.DateTimeFormat` is a
parameter `dt`, since the embedding has no clock; the template literals
are concatenated exactly as in the source. -/
def formatTelegramMessage (dt : String) (d : LeadData) : String :=
  "🟣 Заявка на консультацію “Управителька”\n🕒 " ++ dt ++
  "\n\n👤 Клієнт: " ++ d.name ++
  "\n📞 Контакт: " ++ d.contact ++
  "\n\n🏠 Тип: " ++ d.type ++
  "\n📍 Локація: " ++ d.location ++
  "\n⏱️ Старт: " ++ d.timeline ++
  "\n\n📝 Запит:\n" ++ d.needs ++ "\n"

/-- The provider payload `data` as this code observes it: `data.ok`
(falsy when absent) and `data.description`, where an absent description
and an empty-string description are indistinguishable to the code
(both falsy), so absence is modelled as `""`. -/
structure TgPayload where
  ok : Bool
  description : String
deriving DecidableEq, Repr

/-- The transport response to the outbound `fetch`: the HTTP status and
the JSON-parsed body (`none` when `resp.json()` rejects, which the code
replaces by `{}`). -/
structure TgResponse where
  status : Nat
  parsed : Option TgPayload
deriving DecidableEq, Repr

/-- `Response.ok` of the Fetch API: status in the 2xx range. -/
def respOk (r : TgResponse) : Bool :=
  200 ≤ r.status && r.status < 300

/-- Outcome of one delivery attempt: `ok` models a normal return of
`sendToTelegram`, `err` models the thrown `Error` with its `message`. -/
inductive DeliveryOutcome where
  | ok
  | err (message : String)
deriving DecidableEq, Repr

/-- `sendToTelegram` from server.js, as a function of the transport
response it received: `data` is the parsed payload or `{}` on parse
failure; it throws `Telegram error: <desc>` when `!resp.ok || !data.ok`,
where `desc` is `data?.description || "HTTP " + resp.status`. -/
def sendToTelegram (r : TgResponse) : DeliveryOutcome :=
  let data := r.parsed.getD { ok := false, description := "" }
  if !respOk r || !data.ok then
    .err ("Telegram error: " ++
      (if data.description != "" then data.description else "HTTP " ++ toString r.status))
  else
    .ok

/-- The JSON envelope returned by the routes of server.js: the HTTP
status, the `ok` flag, and the optional `message` and `fields` members. -/
structure ApiResponse where
  status : Nat
  ok : Bool
  message : Option String
  fields : Option (List String)
deriving DecidableEq, Repr

/-- The `POST /api/lead` handler from server.js, as a pure function of
the configuration, the parsed body, the formatted timestamp and the
delivery transport (abstracted as a function from the message text to a
`DeliveryOutcome`).  The second component of the result is the list of
outbound delivery calls made (their message texts), in order. -/
def handleLead (cfg : Config) (body : JsBody) (dt : String)
    (deliver : String → DeliveryOutcome) : ApiResponse × List String :=
  let v := validateLead body
  if !v.ok then
    ({ status := 400, ok := false, message := some "Некоректні дані форми.",
       fields := some v.errors }, [])
  else if !requiredEnvOk cfg then
    ({ status := 500, ok := false,
       message := some "Telegram не налаштовано на сервері (немає TELEGRAM_BOT_TOKEN / TELEGRAM_CHAT_ID).",
       fields := none }, [])
  else
    let msg := formatTelegramMessage dt v.data
    match deliver msg with
    | .ok => ({ status := 200, ok := true, message := none, fields := none }, [msg])
    | .err e =>
      ({ status := 500, ok := false,
         message := some (if e != "" then e else "Помилка відправки в Telegram"),
         fields := none }, [msg])

/-- The JSON body returned by `GET /health`. -/
structure HealthResponse where
  ok : Bool
  status : String
  telegramConfigured : Bool
  allowedOrigins : List String
deriving DecidableEq, Repr

/-- The `GET /health` handler from server.js.  It reads nothing from the
request, so it is a function of the configuration alone. -/
def healthResponse (cfg : Config) : HealthResponse :=
  { ok := true, status := "up", telegramConfigured := requiredEnvOk cfg,
    allowedOrigins := cfg.allowedOrigins }

/-- The identifiers of the seven checks of spec §4.1, in the fixed order
they are evaluated. -/
def leadCheckIds : List String :=
  ["Spam.", "name", "contact", "location", "needs", "type", "timeline"]

/-- Modelled from the spec (§4.1): each check's identifier paired with its
condition on the normalized fields, in the fixed evaluation order. -/
def specChecks (b : JsBody) : List (String × Bool) :=
  [("Spam.", cleanStr b.website != ""),
   ("name", decide ((cleanStr b.name).length < 2)),
   ("contact", decide ((cleanStr b.contact).length < 5)),
   ("location", decide ((cleanStr b.location).length < 2)),
   ("needs", decide ((cleanStr b.needs).length < 10)),
   ("type", cleanStr b.type == ""),
   ("timeline", cleanStr b.timeline == "")]

/-- Modelled from the spec (§4.1, §8): the identifiers of exactly those
checks whose condition holds, in the fixed order. -/
def specFailedIds (b : JsBody) : List String :=
  ((specChecks b).filter (fun p => p.2)).map (fun p => p.1)

theorem buildErrors_eq_filter (c1 c2 c3 c4 c5 c6 c7 : Bool) :
    ((if c1 = true then ["Spam."] else []) ++
     (if c2 = true then ["name"] else []) ++
     (if c3 = true then ["contact"] else []) ++
     (if c4 = true then ["location"] else []) ++
     (if c5 = true then ["needs"] else []) ++
     (if c6 = true then ["type"] else []) ++
     (if c7 = true then ["timeline"] else [])) =
    ((([("Spam.", c1), ("name", c2), ("contact", c3), ("location", c4),
        ("needs", c5), ("type", c6), ("timeline", c7)] : List (String × Bool)).filter
      (fun p => p.2)).map (fun p => p.1)) := by
  revert c1 c2 c3 c4 c5 c6 c7
  decide

theorem validateLead_errors_eq (b : JsBody) :
    (validateLead b).errors = specFailedIds b :=
  buildErrors_eq_filter _ _ _ _ _ _ _

theorem beq_zero_length_iff (l : List String) : (l.length == 0) = true ↔ l = [] := by
  cases l <;> simp

theorem validateLead_ok_iff (b : JsBody) :
    (validateLead b).ok = true ↔ (validateLead b).errors = [] :=
  beq_zero_length_iff _

theorem specFailedIds_subset (b : JsBody) : specFailedIds b ⊆ leadCheckIds := by
  intro x hx
  simp [specFailedIds, specChecks, List.mem_filter, List.mem_map] at hx
  simp only [leadCheckIds, List.mem_cons, List.not_mem_nil]
  tauto

theorem spam_mem_errors (b : JsBody) (h : cleanStr b.website ≠ "") :
    "Spam." ∈ (validateLead b).errors := by
  have hb : (cleanStr b.website != "") = true := bne_iff_ne.mpr h
  show "Spam." ∈ (validateLead b).errors
  rw [validateLead_errors_eq]
  simp [specFailedIds, specChecks, hb]

theorem ok_false_of_mem (b : JsBody) (x : String) (hx : x ∈ (validateLead b).errors) :
    (validateLead b).ok = false := by
  cases hok : (validateLead b).ok with
  | false => rfl
  | true =>
    have he := (validateLead_ok_iff b).mp hok
    rw [he] at hx
    exact absurd hx (List.not_mem_nil x)

/-- Modelled from the spec (§4.2 failure classification): success exactly
when the transport response is 2xx and the provider payload indicates
success; otherwise a delivery error whose message carries the provider
description when one is present, and an HTTP-status-derived message
otherwise. -/
def specSendOutcome (r : TgResponse) : DeliveryOutcome :=
  match r.parsed with
  | some p =>
    if 200 ≤ r.status ∧ r.status < 300 ∧ p.ok = true then .ok
    else .err ("Telegram error: " ++
      (if p.description ≠ "" then p.description else "HTTP " ++ toString r.status))
  | none => .err ("Telegram error: " ++ "HTTP " ++ toString r.status)

/-- Scenario A body of spec §8: a fully valid submission. -/
def bodyScenarioA : JsBody :=
  { name := .str "Ann", contact := .str "12345", type := .str "house",
    location := .str "NY", needs := .str "need help moving soon", timeline := .str "asap" }

/-- Scenario C body of spec §8: every content check fails. -/
def bodyScenarioC : JsBody :=
  { name := .str "A", contact := .str "123", type := .str "",
    location := .str "", needs := .str "short", timeline := .str "" }

/-- Scenario B body of spec §8: valid content but a filled honeypot. -/
def bodyScenarioB : JsBody :=
  { bodyScenarioA with website := .str "http://spam.com" }

/-- A configuration with both Telegram credentials present. -/
def cfgConfigured : Config :=
  { botToken := "123:abc", chatId := "42", allowedOrigins := ["http://localhost:5173"] }

/-- A configuration with both Telegram credentials missing. -/
def cfgUnconfigured : Config :=
  { botToken := "", chatId := "", allowedOrigins := ["http://localhost:5173"] }

/-- C1: for every input, `validateLead` returns exactly the identifiers of
the checks of spec §4.1 whose condition holds, in the fixed order
Spam./name/contact/location/needs/type/timeline (all checks evaluated,
never short-circuited), and the result is valid iff zero checks failed. -/
theorem claim_C1_validator_exact (b : JsBody) :
    (validateLead b).errors = specFailedIds b ∧
    ((validateLead b).ok = true ↔ (validateLead b).errors = []) :=
  ⟨validateLead_errors_eq b, validateLead_ok_iff b⟩

/-- C4: any input whose trimmed honeypot `website` field is non-empty fails
validation with `"Spam."` among the returned identifiers, regardless of the
other fields. -/
theorem claim_C4_honeypot (b : JsBody) (h : cleanStr b.website ≠ "") :
    (validateLead b).ok = false ∧ "Spam." ∈ (validateLead b).errors :=
  ⟨ok_false_of_mem b "Spam." (spam_mem_errors b h), spam_mem_errors b h⟩

theorem claim_C4_witness :
    (validateLead bodyScenarioB).ok = false ∧ "Spam." ∈ (validateLead bodyScenarioB).errors :=
  claim_C4_honeypot bodyScenarioB (by decide)

/-- C7 counterexample: on the empty (all-fields-absent) body every length
check fails, yet `validateLead` still produces the full normalized data
record; so the claim that the validated data record is not produced on a
failing input is false of the code. -/
theorem claim_C7_counterexample :
    (validateLead ({} : JsBody)).ok = false ∧
    (validateLead ({} : JsBody)).data =
      { name := "", contact := "", type := "", location := "", needs := "",
        timeline := "", website := "" } := by
  decide

/-- C7 (amended): `validateLead` returns a normalized data record for every
input, but the record reaches the notifier only when validation succeeds:
whenever the handler makes any outbound call, the body validated
successfully and the single call carries the message formatted from the
validated record. -/
theorem claim_C7_data_gated (cfg : Config) (b : JsBody) (dt : String)
    (f : String → DeliveryOutcome) (h : (handleLead cfg b dt f).2 ≠ []) :
    (validateLead b).ok = true ∧
    (handleLead cfg b dt f).2 = [formatTelegramMessage dt (validateLead b).data] := by
  cases hok : (validateLead b).ok with
  | false => exact absurd (by simp [handleLead, hok]) h
  | true =>
    refine ⟨rfl, ?_⟩
    by_cases hcfg : requiredEnvOk cfg
    · simp only [handleLead, hok, hcfg]
      cases hm : f (formatTelegramMessage dt (validateLead b).data) <;> simp [hm]
    · exact absurd (by simp [handleLead, hok, hcfg]) h

theorem claim_C7_witness :
    (validateLead bodyScenarioA).ok = true ∧
    (handleLead cfgConfigured bodyScenarioA "01.01.2026, 12:00" (fun _ => .ok)).2 =
      [formatTelegramMessage "01.01.2026, 12:00" (validateLead bodyScenarioA).data] :=
  claim_C7_data_gated cfgConfigured bodyScenarioA "01.01.2026, 12:00" (fun _ => .ok) (by decide)

/-- C8: every recognized field is coerced to text and trimmed, a missing
field (undefined or null) becomes empty text, and the Scenario C body
yields status 400 with fields exactly
["name","contact","location","needs","type","timeline"] in that order,
for every configuration and delivery transport. -/
theorem claim_C8_normalization :
    cleanStr .undefined = "" ∧ cleanStr .null = "" ∧
    (∀ s, cleanStr (.str s) = jsTrim s) ∧
    (∀ cfg dt f, (handleLead cfg bodyScenarioC dt f).1.status = 400 ∧
      (handleLead cfg bodyScenarioC dt f).1.fields =
        some ["name", "contact", "location", "needs", "type", "timeline"]) := by
  refine ⟨by decide, by decide, fun s => rfl, fun cfg dt f => ?_⟩
  have hok : (validateLead bodyScenarioC).ok = false := by decide
  have he : (validateLead bodyScenarioC).errors =
      ["name", "contact", "location", "needs", "type", "timeline"] := by decide
  constructor <;> simp [handleLead, hok, he]

/-- C9: the `/health` handler answers with `ok = true`, `status = "up"`,
the configured origin allow-list, and `telegramConfigured` true exactly
when both the bot token and the chat id are non-empty; it reads nothing
from the request (it is a function of the configuration alone). -/
theorem claim_C9_health (cfg : Config) :
    (healthResponse cfg).ok = true ∧
    (healthResponse cfg).status = "up" ∧
    (healthResponse cfg).allowedOrigins = cfg.allowedOrigins ∧
    ((healthResponse cfg).telegramConfigured = true ↔
      (cfg.botToken ≠ "" ∧ cfg.chatId ≠ "")) := by
  refine ⟨rfl, rfl, rfl, ?_⟩
  simp [healthResponse, requiredEnvOk, bne_iff_ne]

/-- C10: the validator is total over arbitrary JS field values: null and
undefined normalize to empty text, non-string values are accepted by
string coercion (a numeric name 42 becomes "42" and passes the name
check), and for every input the returned identifiers are among the seven
known check identifiers. -/
theorem claim_C10_totality :
    cleanStr .null = "" ∧ cleanStr .undefined = "" ∧ cleanStr (.num 42) = "42" ∧
    (∀ b, b.name = JsValue.num 42 → "name" ∉ (validateLead b).errors) ∧
    (∀ b, (validateLead b).errors ⊆ leadCheckIds) := by
  refine ⟨by decide, by decide, by decide, ?_, ?_⟩
  · intro b h hx
    rw [validateLead_errors_eq] at hx
    have hname : (decide ((cleanStr (JsValue.num 42)).length < 2)) = false := by decide
    simp [specFailedIds, specChecks, List.mem_filter, List.mem_map, h, hname] at hx
  · intro b
    rw [validateLead_errors_eq]
    exact specFailedIds_subset b

theorem claim_C10_witness :
    "name" ∉ (validateLead { bodyScenarioA with name := JsValue.num 42 }).errors :=
  claim_C10_totality.2.2.2.1 { bodyScenarioA with name := JsValue.num 42 } rfl

/-- C2 counterexample: with both credentials empty, a body that fails
validation is answered with status 400 (the validation response), not the
500 missing-configuration response the claim requires regardless of the
validation outcome. -/
theorem claim_C2_counterexample :
    requiredEnvOk cfgUnconfigured = false ∧
    (handleLead cfgUnconfigured bodyScenarioC "01.01.2026, 12:00" (fun _ => .ok)).1.status = 400 ∧
    (handleLead cfgUnconfigured bodyScenarioC "01.01.2026, 12:00" (fun _ => .ok)).1.status ≠ 500 := by
  decide

/-- C2 (amended): when the delivery credentials are absent or empty, no
delivery is ever attempted; a body that passes validation is answered
with the 500 missing-configuration response, while a body that fails
validation gets the 400 validation response (the validation check runs
first). -/
theorem claim_C2_missing_config (cfg : Config) (b : JsBody) (dt : String)
    (f : String → DeliveryOutcome) (h : requiredEnvOk cfg = false) :
    (handleLead cfg b dt f).2 = [] ∧
    ((validateLead b).ok = true →
      (handleLead cfg b dt f).1 =
        { status := 500, ok := false,
          message := some "Telegram не налаштовано на сервері (немає TELEGRAM_BOT_TOKEN / TELEGRAM_CHAT_ID).",
          fields := none }) ∧
    ((validateLead b).ok = false → (handleLead cfg b dt f).1.status = 400) := by
  cases hok : (validateLead b).ok <;> simp [handleLead, hok, h]

theorem claim_C2_witness :
    (handleLead cfgUnconfigured bodyScenarioA "01.01.2026, 12:00" (fun _ => .ok)).2 = [] ∧
    (handleLead cfgUnconfigured bodyScenarioA "01.01.2026, 12:00" (fun _ => .ok)).1 =
      { status := 500, ok := false,
        message := some "Telegram не налаштовано на сервері (немає TELEGRAM_BOT_TOKEN / TELEGRAM_CHAT_ID).",
        fields := none } := by
  have h := claim_C2_missing_config cfgUnconfigured bodyScenarioA "01.01.2026, 12:00"
    (fun _ => .ok) (by decide)
  exact ⟨h.1, h.2.1 (by decide)⟩

/-- C3: the handler composes validator and notifier: an invalid body is
answered 400 with the failed-field identifiers and no outbound call; a
valid body under a configured environment triggers exactly one outbound
call with the formatted message, answered 200 `ok` on delivery success
and 500 carrying the delivery error's message on delivery failure. -/
theorem claim_C3_composition (cfg : Config) (b : JsBody) (dt : String)
    (f : String → DeliveryOutcome) :
    ((validateLead b).ok = false →
      (handleLead cfg b dt f).1 =
        { status := 400, ok := false, message := some "Некоректні дані форми.",
          fields := some (validateLead b).errors } ∧
      (handleLead cfg b dt f).2 = []) ∧
    ((validateLead b).ok = true → requiredEnvOk cfg = true →
      (handleLead cfg b dt f).2 = [formatTelegramMessage dt (validateLead b).data] ∧
      (f (formatTelegramMessage dt (validateLead b).data) = .ok →
        (handleLead cfg b dt f).1 =
          { status := 200, ok := true, message := none, fields := none }) ∧
      (∀ e, f (formatTelegramMessage dt (validateLead b).data) = .err e → e ≠ "" →
        (handleLead cfg b dt f).1 =
          { status := 500, ok := false, message := some e, fields := none })) := by
  cases hok : (validateLead b).ok with
  | false => simp [handleLead, hok]
  | true =>
    simp only [Bool.true_eq_false, false_implies, true_and, true_implies]
    intro hcfg
    simp only [handleLead, hok, hcfg]
    cases hm : f (formatTelegramMessage dt (validateLead b).data) with
    | ok => simp [hm]
    | err e0 =>
      simp only [hm]
      refine ⟨rfl, by simp, fun e he hne => ?_⟩
      obtain rfl : e0 = e := by injection he
      simp [bne_iff_ne, hne]

theorem claim_C3_witness :
    (handleLead cfgConfigured bodyScenarioC "01.01.2026, 12:00" (fun _ => .ok)).1.status = 400 ∧
    (handleLead cfgConfigured bodyScenarioA "01.01.2026, 12:00" (fun _ => .ok)).1 =
      { status := 200, ok := true, message := none, fields := none } ∧
    (handleLead cfgConfigured bodyScenarioA "01.01.2026, 12:00"
        (fun _ => .err "Telegram error: HTTP 502")).1 =
      { status := 500, ok := false, message := some "Telegram error: HTTP 502",
        fields := none } := by
  refine ⟨?_, ?_, ?_⟩
  · have h := (claim_C3_composition cfgConfigured bodyScenarioC "01.01.2026, 12:00"
      (fun _ => .ok)).1 (by decide)
    rw [h.1]
  · have h := (claim_C3_composition cfgConfigured bodyScenarioA "01.01.2026, 12:00"
      (fun _ => .ok)).2 (by decide) (by decide)
    exact h.2.1 rfl
  · have h := (claim_C3_composition cfgConfigured bodyScenarioA "01.01.2026, 12:00"
      (fun _ => .err "Telegram error: HTTP 502")).2 (by decide) (by decide)
    exact h.2.2 "Telegram error: HTTP 502" rfl (by decide)

/-- C5: `sendToTelegram` succeeds exactly when the transport response is
2xx and the parsed provider payload indicates success; otherwise it
yields a delivery error preferring the provider's description text when a
non-empty one is present, and the HTTP-status-derived message otherwise —
the code agrees with the spec-side classification `specSendOutcome`. -/
theorem claim_C5_delivery (r : TgResponse) :
    (sendToTelegram r = .ok ↔
      (200 ≤ r.status ∧ r.status < 300 ∧ ∃ p, r.parsed = some p ∧ p.ok = true)) ∧
    sendToTelegram r = specSendOutcome r := by
  obtain ⟨st, parsed⟩ := r
  cases parsed with
  | none =>
    by_cases h1 : 200 ≤ st <;> by_cases h2 : st < 300 <;>
      simp [sendToTelegram, specSendOutcome, respOk, h1, h2] <;> rfl
  | some p =>
    by_cases h1 : 200 ≤ st <;> by_cases h2 : st < 300 <;>
      cases hp : p.ok <;> by_cases hd : p.description = "" <;>
        simp [sendToTelegram, specSendOutcome, respOk, h1, h2, hp, hd, bne_iff_ne]

set_option maxRecDepth 4000 in
/-- C6 counterexample: the honeypot `website` value is not interpolated
into the notification message: two leads differing only in `website`
produce the identical message, and a concrete non-empty website value
does not occur in the message text — so only six of the seven field
values appear, not seven as claimed. -/
theorem claim_C6_counterexample :
    formatTelegramMessage "01.01.2026, 12:00"
      { name := "Ann", contact := "12345", type := "house", location := "NY",
        needs := "need help moving soon", timeline := "asap", website := "HONEYPOTVALUE" } =
    formatTelegramMessage "01.01.2026, 12:00"
      { name := "Ann", contact := "12345", type := "house", location := "NY",
        needs := "need help moving soon", timeline := "asap", website := "" } ∧
    ¬ ("HONEYPOTVALUE" : String).data <:+: (formatTelegramMessage "01.01.2026, 12:00"
      { name := "Ann", contact := "12345", type := "house", location := "NY",
        needs := "need help moving soon", timeline := "asap", website := "HONEYPOTVALUE" }).data := by
  exact ⟨rfl, by decide⟩

/-- C6 (amended): the notification message is the fixed template carrying
the date-plus-hour:minute timestamp and the six field values client name,
contact, type, location, start timeline and free-text needs, interpolated
in that fixed order (the seventh field, the honeypot `website`, is not
included). -/
theorem claim_C6_message (dt : String) (d : LeadData) :
    ∃ p0 p1 p2 p3 p4 p5 p6,
      formatTelegramMessage dt d =
        p0 ++ dt ++ p1 ++ d.name ++ p2 ++ d.contact ++ p3 ++ d.type ++ p4 ++
        d.location ++ p5 ++ d.timeline ++ p6 ++ d.needs ++ "\n" :=
  ⟨"🟣 Заявка на консультацію “Управителька”\n🕒 ", "\n\n👤 Клієнт: ",
   "\n📞 Контакт: ", "\n\n🏠 Тип: ", "\n📍 Локація: ", "\n⏱️ Старт: ",
   "\n\n📝 Запит:\n", rfl⟩
